import Mathlib

/-!
Verification development for a small FastAPI HTTP gateway (`src/main.py`):
five protected YouTube endpoints behind an `X-API-Key` auth gate, plus a
background keep-alive loop that periodically pings the service's own
`/health` endpoint.

The Python code is shallowly embedded:
* Python exceptions become the inductive type `PyExc`.  Crucially,
  `asyncio.CancelledError` derives from `BaseException`, not `Exception`,
  so a Python `except Exception` clause does NOT catch it; this is modelled
  by the predicate `isException`.
* A `try ... except Exception as e: raise HTTPException(500, str(e))`
  block becomes the combinator `tryExcept500` acting on `Except PyExc`.
* The keep-alive loop body is a function of the per-iteration environment
  (the sampled randomness, and the outcomes the scheduler/network chooses
  at each suspension point), producing a trace of performed actions and
  an optional propagating exception.
-/

/-- Python exceptions relevant to `main.py`.  `cancelledError` models
`asyncio.CancelledError`, which since Python 3.8 derives from
`BaseException` and is therefore not caught by `except Exception`. -/
inductive PyExc where
  | httpException (status_code : Nat) (detail : String)
  | httpxError (msg : String)
  | cancelledError
  | otherException (msg : String)
deriving DecidableEq, Repr

/-- Whether a raised object is caught by a Python `except Exception`
clause: everything except `asyncio.CancelledError` (a `BaseException`). -/
def isException : PyExc → Bool
  | .cancelledError => false
  | _ => true

/-- Python `str(e)`.  Starlette's `HTTPException.__str__` renders as
`"{status_code}: {detail}"`; for the other exceptions we expose their
message. -/
def str_exc : PyExc → String
  | .httpException c d => toString c ++ ": " ++ d
  | .httpxError m => m
  | .cancelledError => "CancelledError"
  | .otherException m => m

/-- The `snippet` part of a YouTube `videos().list` item: `title` and the
`thumbnails` object (modelled as a finite map from size name to URL). -/
structure Snippet where
  title : String
  thumbnails : List (String × String)
deriving DecidableEq, Repr

/-- One item of a YouTube `videos().list` response. -/
structure VideoItem where
  snippet : Snippet
deriving DecidableEq, Repr

/-- The upstream metadata response: `response['items']`. -/
structure VideosListResponse where
  items : List VideoItem
deriving DecidableEq, Repr

/-- The `try ... except Exception as e: raise HTTPException(status_code=500,
detail=str(e))` pattern wrapped around every route handler body in
`main.py`.  An exception escaping the `try` block is converted to a 500
`HTTPException` carrying `str(e)` — including an `HTTPException` raised
inside the block, since `HTTPException` derives from `Exception`.  A
`CancelledError` is not caught and propagates unchanged. -/
def tryExcept500 {α : Type} (body : Except PyExc α) : Except PyExc α :=
  match body with
  | .ok a => .ok a
  | .error e =>
    if isException e then .error (.httpException 500 (str_exc e)) else .error e

/-- Body of the `try` block of the `/get_title` handler, as a function of
the upstream adapter's outcome: on an empty item set raise
`HTTPException(404, "Video not found")`, otherwise return
`{"title": items[0].snippet.title}`. -/
def get_title_try (upstream : Except PyExc VideosListResponse) :
    Except PyExc String :=
  match upstream with
  | .error e => .error e
  | .ok resp =>
    match resp.items with
    | [] => .error (.httpException 404 "Video not found")
    | item :: _ => .ok item.snippet.title

/-- The `/get_title` handler body (after the auth dependency has passed):
the `try` block wrapped in the blanket `except Exception` clause. -/
def get_title (upstream : Except PyExc VideosListResponse) :
    Except PyExc String :=
  tryExcept500 (get_title_try upstream)

/-- Body of the `try` block of the `/get_thumbnail` handler. -/
def get_thumbnail_try (upstream : Except PyExc VideosListResponse) :
    Except PyExc (List (String × String)) :=
  match upstream with
  | .error e => .error e
  | .ok resp =>
    match resp.items with
    | [] => .error (.httpException 404 "Video not found")
    | item :: _ => .ok item.snippet.thumbnails

/-- The `/get_thumbnail` handler body (after auth). -/
def get_thumbnail (upstream : Except PyExc VideosListResponse) :
    Except PyExc (List (String × String)) :=
  tryExcept500 (get_thumbnail_try upstream)

/-- The hard-coded fallback used by `os.environ.get("API_KEY",
"your-api-key-here")` in the auth dependency. -/
def apiKeyFallback : String := "your-api-key-here"

/-- The secret the auth gate compares against: the `API_KEY` environment
variable, or the hard-coded fallback when unset. -/
def authSecret (env_api_key : Option String) : String :=
  env_api_key.getD apiKeyFallback

/-- The `get_api_key` dependency of `main.py`: the `X-API-Key` header
(`none` when absent, since `APIKeyHeader(auto_error=False)` yields `None`)
is compared with `os.environ.get("API_KEY", "your-api-key-here")`;
a mismatch — including a missing header, since in Python
`None != "<secret>"` — raises `HTTPException(403, "Could not validate API
key")`, otherwise the key is returned. -/
def get_api_key (env_api_key : Option String) (header : Option String) :
    Except PyExc String :=
  match header with
  | none => .error (.httpException 403 "Could not validate API key")
  | some k =>
    if k ≠ authSecret env_api_key then
      .error (.httpException 403 "Could not validate API key")
    else
      .ok k

/-- Model of Python `random.randint(a, b)` (both endpoints inclusive) as a
function of a raw randomness seed `r`: the uniform image of `r` in
`[a, b]`. -/
def randint (a b r : Nat) : Nat := a + r % (b - a + 1)

/-- Outcome chosen by the scheduler at an `await asyncio.sleep(...)`
suspension point: the sleep runs to completion, or a cancellation request
makes the `await` raise `asyncio.CancelledError`. -/
inductive SleepOutcome where
  | completed
  | cancelled
deriving DecidableEq, Repr

/-- Outcome of the `await client.get(health_endpoint)` call: an HTTP
response with some status code (httpx does not raise on non-2xx statuses),
a network-level failure (connection error, timeout, DNS failure — all
`httpx` errors derive from `Exception`), or cancellation delivered while
awaiting the request. -/
inductive PingOutcome where
  | success (status : Nat)
  | netError (msg : String)
  | cancelled
deriving DecidableEq, Repr

/-- Observable actions of one keep-alive iteration, in program order:
`sleep s` records a completed `await asyncio.sleep(s)`; `ping` records the
outbound GET request to the health endpoint being issued. -/
inductive Act where
  | sleep (secs : Nat)
  | ping
deriving DecidableEq, Repr

/-- The per-iteration environment of the keep-alive loop: the raw
randomness consumed by `random.randint(420, 720)` and the outcomes the
scheduler/network chooses at each suspension point of the iteration. -/
structure IterEnv where
  rand : Nat
  sleepJitter : SleepOutcome
  ping : PingOutcome
  sleepBackoff : SleepOutcome
deriving DecidableEq, Repr

/-- The health-check URL pinged by the keep-alive task:
`os.environ.get("RENDER_EXTERNAL_URL", "http://localhost:8000")` read once
at task start, with `"/health"` appended. -/
def health_endpoint (render_external_url : Option String) : String :=
  render_external_url.getD "http://localhost:8000" ++ "/health"

/-- One iteration of the `while True` loop of `keep_alive` in `main.py`:

* `try`: sample `interval = random.randint(420, 720)`, `await
  asyncio.sleep(interval)`, then issue the GET ping and log its status;
* `except Exception`: a caught failure is logged and followed by `await
  asyncio.sleep(300)` before the loop resumes.

`CancelledError` raised at a suspension point is not an `Exception`, so it
escapes the `except` clause and terminates the loop.  The result is the
trace of actions the iteration performed and the exception propagating
out of the iteration, if any (`none` means the loop continues). -/
def keep_alive_iter (env : IterEnv) : List Act × Option PyExc :=
  let interval := randint 420 720 env.rand
  let tryResult : List Act × Option PyExc :=
    match env.sleepJitter with
    | .cancelled => ([], some .cancelledError)
    | .completed =>
      match env.ping with
      | .success _ => ([.sleep interval, .ping], none)
      | .netError m => ([.sleep interval, .ping], some (.httpxError m))
      | .cancelled => ([.sleep interval, .ping], some .cancelledError)
  match tryResult with
  | (tr, none) => (tr, none)
  | (tr, some e) =>
    if isException e then
      match env.sleepBackoff with
      | .completed => (tr ++ [.sleep 300], none)
      | .cancelled => (tr, some .cancelledError)
    else
      (tr, some e)

/-- A finite run of the keep-alive loop under a given sequence of
per-iteration environments: iterations execute in order until one of them
propagates an exception (which terminates the loop), accumulating the
concatenated action trace. -/
def keep_alive_run : List IterEnv → List Act × Option PyExc
  | [] => ([], none)
  | env :: rest =>
    match keep_alive_iter env with
    | (tr, some e) => (tr, some e)
    | (tr, none) =>
      let r := keep_alive_run rest
      (tr ++ r.1, r.2)

/-- The outcome of the server's shutdown sequence in `lifespan`. -/
inductive ShutdownResult where
  | cleanShutdown
  | error (e : PyExc)
deriving DecidableEq, Repr

/-- The shutdown half of `lifespan` in `main.py`: after `ping_task.cancel()`
the server does `await ping_task`, blocking until the task has exited; the
task's `CancelledError` is caught and logged (clean shutdown), any other
propagating exception re-raises out of `lifespan`. -/
def lifespan_shutdown (taskExit : Option PyExc) : ShutdownResult :=
  match taskExit with
  | none => .cleanShutdown
  | some .cancelledError => .cleanShutdown
  | some e => .error e

/-- Running a protected route: FastAPI resolves the `get_api_key`
dependency before the handler body executes; if the dependency raises, the
handler body — whose first statement performs the upstream adapter call —
is never entered.  The boolean records whether the handler body (and hence
the upstream call) was reached. -/
def dispatch_protected {α : Type} (env_api_key header : Option String)
    (handler : Except PyExc α) : Except PyExc α × Bool :=
  match get_api_key env_api_key header with
  | .error e => (.error e, false)
  | .ok _ => (handler, true)

theorem randint_mem_Icc (r : Nat) :
    420 ≤ randint 420 720 r ∧ randint 420 720 r ≤ 720 := by
  unfold randint
  omega

theorem keep_alive_iter_trace_cases (env : IterEnv) :
    (keep_alive_iter env).1 = [] ∨
    (keep_alive_iter env).1 = [.sleep (randint 420 720 env.rand), .ping] ∨
    (keep_alive_iter env).1 =
      [.sleep (randint 420 720 env.rand), .ping, .sleep 300] := by
  rcases env with ⟨r, sj, p, sb⟩
  cases sj <;> cases p <;> cases sb <;>
    simp [keep_alive_iter, isException]

/-- Relation between adjacent actions of a trace: an issued ping is always
immediately preceded by a completed sleep of at least 420 seconds. -/
def sleepBeforePing (a b : Act) : Prop :=
  b = Act.ping → ∃ s, 420 ≤ s ∧ a = Act.sleep s

theorem iter_chain (env : IterEnv) :
    List.Chain' sleepBeforePing (keep_alive_iter env).1 ∧
    (keep_alive_iter env).1.head? ≠ some Act.ping := by
  have hb := randint_mem_Icc env.rand
  rcases keep_alive_iter_trace_cases env with h | h | h <;> rw [h] <;>
    simp [List.Chain', sleepBeforePing] <;>
    exact hb.1

theorem chain_glue (l1 l2 : List Act)
    (h1 : List.Chain' sleepBeforePing l1 ∧ l1.head? ≠ some Act.ping)
    (h2 : List.Chain' sleepBeforePing l2 ∧ l2.head? ≠ some Act.ping) :
    List.Chain' sleepBeforePing (l1 ++ l2) ∧
    (l1 ++ l2).head? ≠ some Act.ping := by
  constructor
  · refine List.Chain'.append h1.1 h2.1 ?_
    intro x hx y hy hping
    exact absurd (by rw [hy, hping]) h2.2
  · cases l1 with
    | nil => simpa using h2.2
    | cons a l => simpa using h1.2

theorem iter_sleep_cases (env : IterEnv) (s : Nat)
    (h : Act.sleep s ∈ (keep_alive_iter env).1) :
    s = 300 ∨ s = randint 420 720 env.rand := by
  rcases keep_alive_iter_trace_cases env with ht | ht | ht <;> rw [ht] at h <;>
    simp at h <;> tauto

/-- Claim C1 (code bug): the claim — and the spec — say an empty upstream
item set yields exactly HTTP 404 with detail "Video not found".  The code
intends this (`raise HTTPException(status_code=404, detail="Video not
found")`), but that raise sits inside the handler's `try` block whose
blanket `except Exception` clause catches the `HTTPException` (a subclass
of `Exception`) and re-raises it as HTTP 500 with detail `str(e)`.  Both
`/get_title` and `/get_thumbnail` therefore answer 500, not 404, on an
empty item set. -/
theorem empty_items_returns_500_not_404 :
    get_title (.ok ⟨[]⟩) =
      .error (.httpException 500 "404: Video not found") ∧
    get_thumbnail (.ok ⟨[]⟩) =
      .error (.httpException 500 "404: Video not found") := by
  constructor <;> rfl

/-- Claim C2: a cancellation request delivered while the keep-alive task is
suspended in its jittered sleep makes the iteration exit at once with
`CancelledError` — no further ping is issued, no backoff runs, the rest of
the loop never executes — and the shutdown half of `lifespan`, which
blocks on `await ping_task`, observes this exit and completes cleanly. -/
theorem cancel_during_sleep_exits_cleanly (env : IterEnv)
    (rest : List IterEnv) (h : env.sleepJitter = .cancelled) :
    keep_alive_run (env :: rest) = ([], some .cancelledError) ∧
    Act.ping ∉ (keep_alive_run (env :: rest)).1 ∧
    lifespan_shutdown (keep_alive_run (env :: rest)).2 = .cleanShutdown := by
  have hiter : keep_alive_iter env = ([], some .cancelledError) := by
    simp [keep_alive_iter, h, isException]
  have hrun : keep_alive_run (env :: rest) = ([], some .cancelledError) := by
    simp only [keep_alive_run, hiter]
  refine ⟨hrun, ?_, ?_⟩ <;> rw [hrun] <;> simp [lifespan_shutdown]

theorem cancel_during_sleep_exits_cleanly_witness :
    (⟨0, .cancelled, .success 200, .completed⟩ : IterEnv).sleepJitter =
      .cancelled ∧
    (keep_alive_run [⟨0, .cancelled, .success 200, .completed⟩] =
        ([], some .cancelledError) ∧
      Act.ping ∉
        (keep_alive_run [⟨0, .cancelled, .success 200, .completed⟩]).1 ∧
      lifespan_shutdown
          (keep_alive_run [⟨0, .cancelled, .success 200, .completed⟩]).2 =
        .cleanShutdown) :=
  ⟨rfl, cancel_during_sleep_exits_cleanly _ [] rfl⟩

/-- Claim C3: in every iteration of the keep-alive loop the sampled
interval `random.randint(420, 720)` lies in the closed interval
`[420, 720]`, and whenever the iteration pings at all, its trace starts
with the completed sleep of exactly that interval followed by the single
GET request of the iteration. -/
theorem jitter_in_bounds_and_sleep_precedes_ping (env : IterEnv) :
    420 ≤ randint 420 720 env.rand ∧ randint 420 720 env.rand ≤ 720 ∧
    ((keep_alive_iter env).1 = [] ∨
     (keep_alive_iter env).1 =
       [.sleep (randint 420 720 env.rand), .ping] ∨
     (keep_alive_iter env).1 =
       [.sleep (randint 420 720 env.rand), .ping, .sleep 300]) :=
  ⟨(randint_mem_Icc env.rand).1, (randint_mem_Icc env.rand).2,
    keep_alive_iter_trace_cases env⟩

/-- Claim C4: a network-level failure of the ping (all `httpx` transport
errors derive from `Exception`) never propagates out of the loop — the
iteration's propagating exception is never the network error — and when
the backoff sleep is allowed to complete, the iteration ends with exactly
one 300-second pause after the failed ping and the loop continues. -/
theorem net_failure_contained_with_300s_backoff (env : IterEnv) (m : String)
    (h1 : env.sleepJitter = .completed) (h2 : env.ping = .netError m) :
    (∀ s, (keep_alive_iter env).2 ≠ some (.httpxError s)) ∧
    (env.sleepBackoff = .completed →
      keep_alive_iter env =
        ([.sleep (randint 420 720 env.rand), .ping, .sleep 300], none)) := by
  constructor
  · intro s
    cases hsb : env.sleepBackoff <;>
      simp [keep_alive_iter, h1, h2, hsb, isException]
  · intro hsb
    simp [keep_alive_iter, h1, h2, hsb, isException]

theorem net_failure_contained_with_300s_backoff_witness :
    (⟨0, .completed, .netError "timeout", .completed⟩ : IterEnv).sleepJitter =
      .completed ∧
    (⟨0, .completed, .netError "timeout", .completed⟩ : IterEnv).ping =
      .netError "timeout" ∧
    ((∀ s,
        (keep_alive_iter
            ⟨0, .completed, .netError "timeout", .completed⟩).2 ≠
          some (.httpxError s)) ∧
      ((⟨0, .completed, .netError "timeout", .completed⟩ :
            IterEnv).sleepBackoff = .completed →
        keep_alive_iter ⟨0, .completed, .netError "timeout", .completed⟩ =
          ([.sleep 420, .ping, .sleep 300], none))) :=
  ⟨rfl, rfl, net_failure_contained_with_300s_backoff _ "timeout" rfl rfl⟩

/-- Claim C5: the auth gate is exact equality against the configured
secret — a request whose `X-API-Key` header equals the secret proceeds
(the dependency returns the key), and a missing or mismatched header
raises HTTP 403 with the fixed detail "Could not validate API key", a
constant string independent of both the secret and the presented value. -/
theorem auth_gate_contract (env_api_key header : Option String) :
    get_api_key env_api_key header =
      if header = some (authSecret env_api_key) then
        .ok (authSecret env_api_key)
      else
        .error (.httpException 403 "Could not validate API key") := by
  cases header with
  | none => simp [get_api_key]
  | some k =>
    by_cases hk : k = authSecret env_api_key
    · subst hk
      simp [get_api_key]
    · simp [get_api_key, hk]

/-- Claim C6: for any protected route (any handler body), a request whose
`X-API-Key` header is missing or differs from the secret is answered 403
by the `get_api_key` dependency before the handler body runs, so the
upstream adapter call at the start of the body is never performed. -/
theorem bad_key_gives_403_and_no_upstream_call {α : Type}
    (env_api_key header : Option String) (handler : Except PyExc α)
    (h : header ≠ some (authSecret env_api_key)) :
    dispatch_protected env_api_key header handler =
      (.error (.httpException 403 "Could not validate API key"), false) := by
  cases header with
  | none => simp [dispatch_protected, get_api_key]
  | some k =>
    have hk : k ≠ authSecret env_api_key := by
      intro e
      exact h (by rw [e])
    simp [dispatch_protected, get_api_key, hk]

theorem bad_key_gives_403_and_no_upstream_call_witness :
    (none : Option String) ≠ some (authSecret none) ∧
    dispatch_protected none none (get_title (.ok ⟨[]⟩)) =
      (.error (.httpException 403 "Could not validate API key"), false) :=
  ⟨by simp, bad_key_gives_403_and_no_upstream_call none none _ (by simp)⟩

/-- Claim C7: the keep-alive loop can never busy-loop on a zero or
negative sleep: the interval is never parsed from configuration at all
(it is hard-coded `random.randint(420, 720)`, so `keep_alive_iter` takes
no configuration input), and every completed sleep of any run is either
the fixed 300-second backoff or a jittered interval of at least 420
seconds — in particular always positive. -/
theorem loop_never_sleeps_nonpositive (envs : List IterEnv) (s : Nat)
    (h : Act.sleep s ∈ (keep_alive_run envs).1) :
    0 < s ∧ (s = 300 ∨ 420 ≤ s) := by
  induction envs with
  | nil => simp [keep_alive_run] at h
  | cons env rest ih =>
    rcases hit : keep_alive_iter env with ⟨tr, exc⟩
    have hmem : Act.sleep s ∈ tr → 0 < s ∧ (s = 300 ∨ 420 ≤ s) := by
      intro hm
      have hc := iter_sleep_cases env s (by rw [hit]; exact hm)
      have hb := randint_mem_Icc env.rand
      rcases hc with h300 | hr
      · omega
      · omega
    cases exc with
    | some e =>
      simp only [keep_alive_run, hit] at h
      exact hmem h
    | none =>
      simp only [keep_alive_run, hit] at h
      rw [List.mem_append] at h
      rcases h with h | h
      · exact hmem h
      · exact ih h

theorem loop_never_sleeps_nonpositive_witness :
    Act.sleep 420 ∈
      (keep_alive_run [⟨0, .completed, .success 200, .completed⟩]).1 ∧
    (0 < 420 ∧ (420 = 300 ∨ 420 ≤ 420)) :=
  ⟨by decide,
    loop_never_sleeps_nonpositive [⟨0, .completed, .success 200, .completed⟩]
      420 (by decide)⟩

/-- Claim C8: `asyncio.CancelledError` delivered at either sleep
suspension point of the loop — the jittered sleep, or the 300-second
backoff sleep reached after a network failure — is not an `Exception`
and so escapes the `except Exception` handler: the iteration terminates
the loop with the cancellation, and no 300-second backoff sleep completes
as a reaction to it. -/
theorem cancellation_not_caught_by_backoff_handler (env : IterEnv)
    (h : env.sleepJitter = .cancelled ∨
      (env.sleepJitter = .completed ∧ (∃ m, env.ping = .netError m) ∧
        env.sleepBackoff = .cancelled)) :
    (keep_alive_iter env).2 = some .cancelledError ∧
    isException .cancelledError = false ∧
    Act.sleep 300 ∉ (keep_alive_iter env).1 := by
  rcases h with h1 | ⟨h1, ⟨m, h2⟩, h3⟩
  · refine ⟨?_, rfl, ?_⟩ <;> simp [keep_alive_iter, h1, isException]
  · have hb := randint_mem_Icc env.rand
    refine ⟨?_, rfl, ?_⟩
    · simp [keep_alive_iter, h1, h2, h3, isException]
    · simp [keep_alive_iter, h1, h2, h3, isException]
      omega

theorem cancellation_not_caught_by_backoff_handler_witness :
    ((⟨0, .cancelled, .success 200, .completed⟩ : IterEnv).sleepJitter =
        .cancelled ∨
      ((⟨0, .cancelled, .success 200, .completed⟩ : IterEnv).sleepJitter =
          .completed ∧
        (∃ m, (⟨0, .cancelled, .success 200, .completed⟩ : IterEnv).ping =
          .netError m) ∧
        (⟨0, .cancelled, .success 200, .completed⟩ : IterEnv).sleepBackoff =
          .cancelled)) ∧
    ((keep_alive_iter ⟨0, .cancelled, .success 200, .completed⟩).2 =
        some .cancelledError ∧
      isException .cancelledError = false ∧
      Act.sleep 300 ∉
        (keep_alive_iter ⟨0, .cancelled, .success 200, .completed⟩).1) :=
  ⟨Or.inl rfl, cancellation_not_caught_by_backoff_handler _ (Or.inl rfl)⟩

/-- Claim C9: when the `API_KEY` environment variable is unset, the auth
gate compares the header against the hard-coded fallback literal
"your-api-key-here"; a request presenting exactly that value passes, and
every other header value (or a missing header) is rejected with 403. -/
theorem unset_api_key_env_uses_fallback :
    (∀ header : Option String, get_api_key none header =
      if header = some "your-api-key-here" then
        Except.ok "your-api-key-here"
      else
        .error (.httpException 403 "Could not validate API key")) ∧
    get_api_key none (some "your-api-key-here") =
      .ok "your-api-key-here" := by
  constructor
  · intro header
    cases header with
    | none => simp [get_api_key]
    | some k =>
      by_cases hk : k = "your-api-key-here"
      · subst hk
        simp [get_api_key, authSecret, apiKeyFallback]
      · simp [get_api_key, authSecret, apiKeyFallback, hk]
  · rfl

/-- Claim C10: in every finite run of the keep-alive loop, each issued
ping is immediately preceded in the trace by a completed sleep of at
least 420 seconds (and the trace never starts with a ping), so between
any two consecutive pings the task is suspended for at least 420 ≥ 300
seconds and no two pings ever occur back-to-back without an intervening
sleep. -/
theorem pings_always_preceded_by_long_sleep (envs : List IterEnv) :
    List.Chain' sleepBeforePing (keep_alive_run envs).1 ∧
    (keep_alive_run envs).1.head? ≠ some Act.ping := by
  induction envs with
  | nil => simp [keep_alive_run]
  | cons env rest ih =>
    rcases hit : keep_alive_iter env with ⟨tr, exc⟩
    have hiterc : List.Chain' sleepBeforePing tr ∧
        tr.head? ≠ some Act.ping := by
      have hi := iter_chain env
      rwa [hit] at hi
    cases exc with
    | some e =>
      simp only [keep_alive_run, hit]
      exact hiterc
    | none =>
      simp only [keep_alive_run, hit]
      exact chain_glue tr (keep_alive_run rest).1 hiterc ih
